import Mathlib

/-!
Verification of the slack-jira-bot event/interaction routing and modal
workflow engine, shallowly embedded from the Go sources.

The embedding covers:
* the `bug` modal package (view definition, submission validator, Jira
  issue template, registration) from the `bug` package source;
* the socket-mode dispatch loop from `cmd/slack-bot/main.go`;
* the generic handler-composition combinator, the interaction router and
  the issue-filing follow-up, whose implementations live in packages of
  this repository that are not part of the provided sources and are
  therefore modelled from the specification (each such definition says so
  in its doc comment).

Side effects on the issue tracker are made observable by letting every
handler return, next to its result, the list of rendered issues it sent
to the tracker client.
-/

namespace SlackJiraBot

/-- One submitted action inside a view-state block: mirrors the fields of
`slack.BlockAction` that the sources read (`SelectedOption.Value` for
static selects and `Value` for plain-text inputs). -/
structure BlockAction where
  selectedOptionValue : String
  value : String
deriving DecidableEq

/-- The view state `callback.View.State.Values`: a finite map from block identifier to the
actions submitted for that block (the Go inner map from action identifier to
`BlockAction`, flattened to the list of its values, which is all the sources
ever iterate over). -/
abbrev ViewStateValues := List (String × List BlockAction)

/-- Go map indexing `callback.View.State.Values[blockId]`: a missing key
yields the empty collection, so loops over it simply do not run. -/
def lookupBlock (vals : ViewStateValues) (blockId : String) : List BlockAction :=
  (vals.lookup blockId).getD []

/-- The interaction sub-types the sources distinguish
(`slack.InteractionTypeViewSubmission` and friends). -/
inductive InteractionType
  | viewSubmission
  | viewClosed
  | blockActions
deriving DecidableEq

/-- The part of `callback.View` the sources read: the private metadata
carrying the flow identifier, and the submitted state values. -/
structure ViewData where
  privateMetadata : String
  stateValues : ViewStateValues
deriving DecidableEq

/-- `slack.InteractionCallback`, restricted to the fields the sources read. -/
structure InteractionCallback where
  interactionType : InteractionType
  view : ViewData
deriving DecidableEq

/-- The response `slack.ViewSubmissionResponse`: the structured value that
`validateSubmissionHandler` marshals into the response payload. The
marshaled bytes are modelled by the structured value itself. -/
structure ViewSubmissionResponse where
  responseAction : String
  errors : List (String × String)
deriving DecidableEq

/-- Errors a handler can surface: a failure of `json.Marshal`, or the
interaction router's "no flow with this identifier registered" miss. -/
inductive HandlerErr
  | marshalFailure (msg : String)
  | routingMiss (identifier : String)
deriving DecidableEq

/-- The triple returned by a follow-up handler in the Go sources:
`(handled bool, response []byte, err error)`. -/
structure HandlerResult where
  handled : Bool
  payload : Option ViewSubmissionResponse
  err : Option HandlerErr
deriving DecidableEq

/-- An issue as handed to the tracker client: title, rendered body and
issue type. -/
structure RenderedIssue where
  title : String
  body : String
  issueType : String
deriving DecidableEq

/-- What one invocation of a handler produces: its result triple together
with the issues it filed with the tracker client during the invocation
(the instrumentation that makes tracker side effects provable). -/
structure Outcome where
  res : HandlerResult
  filed : List RenderedIssue
deriving DecidableEq

/-- A follow-up handler for interaction callbacks
(`interactions.PartialHandler` in the sources). -/
abbrev Handler := InteractionCallback → Outcome

/-- The JSON marshaling step, abstracted so that its failure mode can be
reasoned about: `json.Marshal` of a `ViewSubmissionResponse` either fails
or yields the payload (modelled by the structured value itself). -/
abbrev Marshal := ViewSubmissionResponse → Except HandlerErr ViewSubmissionResponse

/-- The actual behaviour of `json.Marshal` on a `ViewSubmissionResponse`
value: marshaling a plain struct of strings and string maps succeeds. -/
def jsonMarshal : Marshal := fun response => Except.ok response

/-- A marshal step that always fails, exercising the error branch of the
validator. -/
def failingMarshal (e : HandlerErr) : Marshal := fun _ => Except.error e

/-- The constant `Identifier`: the view identifier of the bug modal. -/
def Identifier : String := "bug"

def blockIdCategory : String := "category"
def blockIdOptional : String := "optional"
def blockIdSymptom : String := "symptom"
def blockIdExpected : String := "expected"
def blockIdImpact : String := "impact"
def blockIdReproduction : String := "reproduction"

def componentAI : String := "Assisted Installer"
def componentUI : String := "MGMT UI"
def componentSNO : String := "SNO"
def componentOther : String := "Other"

/-- Modelled from the spec: `modals.BlockIdTitle`, the shared block
identifier for the title input, lives in the modals package that is not
part of the provided sources. -/
def BlockIdTitle : String := "title"

/-- The error message the validator attaches to the qualifier block. -/
def otherComponentMsg : String := "Provide a description of the other component."

/-- The constant `slack.RAErrors`, the response action used for validation errors. -/
def raErrors : String := "errors"

/-- The validator `validateSubmissionHandler` from the bug package: if the "Other"
component is selected and the optional free-text block holds an empty
value, marshal an errors response and claim the callback (propagating a
marshal failure as a claimed error); otherwise decline. The Go loops that
set `otherSelected` and detect an empty value are `List.any` over the
block's actions. Parameterised by the marshal step. -/
def validateSubmissionHandler (marshal : Marshal) : Handler := fun callback =>
  let otherSelected := (lookupBlock callback.view.stateValues blockIdCategory).any
    (fun action => action.selectedOptionValue == componentOther)
  if otherSelected then
    if (lookupBlock callback.view.stateValues blockIdOptional).any
        (fun action => action.value == "") then
      match marshal { responseAction := raErrors
                      errors := [(blockIdOptional, otherComponentMsg)] } with
      | Except.error e => ⟨⟨true, none, some e⟩, []⟩
      | Except.ok response => ⟨⟨true, some response, none⟩, []⟩
    else ⟨⟨false, none, none⟩, []⟩
  else ⟨⟨false, none, none⟩, []⟩

/-- Modelled from the spec: the handler-composition combinator
(`interactions.MultiHandler`, not under the provided sources) tries each
handler in order and returns the result of the first one that reports
`handled`; if none claims the input it reports unhandled with no payload
and no error. Handlers tried before the claiming one have already run, so
their tracker calls are part of the combined outcome; handlers after it
never run. -/
def multiHandler : List Handler → Handler
  | [], _ => ⟨⟨false, none, none⟩, []⟩
  | h :: rest, callback =>
    let first := h callback
    if first.res.handled then first
    else
      let remaining := multiHandler rest callback
      ⟨remaining.res, first.filed ++ remaining.filed⟩

/-- The body produced by the bug package's Jira issue template
(`issueParameters`): the symptom and expected texts substituted verbatim,
and a conditional category section that renders "Other: " plus the
qualifier text when the selected category is "Other" and the selected
category itself otherwise. -/
def bugBody (symptom expected categorySelect optionalText : String) : String :=
  "h3. Symptomatic Behavior\n" ++ symptom ++
  "\n\nh3. Expected Behavior\n" ++ expected ++
  "\n\nh3. Category\n" ++
  (if categorySelect = componentOther then "Other: " ++ optionalText else categorySelect)

/-- Modelled from the spec: field-value extraction for a plain-text input
block (the modals package's field extraction is not under the provided
sources). The submitted value of the block's action. -/
def fieldValue (callback : InteractionCallback) (blockId : String) : String :=
  (((lookupBlock callback.view.stateValues blockId).head?).map
    (fun action => action.value)).getD ""

/-- Modelled from the spec: field-value extraction for a static-select
block — the selected option's value, the spec's "sub-key distinguishing
the selected-option value from free text". -/
def fieldSelectedValue (callback : InteractionCallback) (blockId : String) : String :=
  (((lookupBlock callback.view.stateValues blockId).head?).map
    (fun action => action.selectedOptionValue)).getD ""

/-- The issue the bug flow renders for a submission: title from the title
block, type Bug, body from the template over the submitted field values. -/
def renderedBugIssue (callback : InteractionCallback) : RenderedIssue :=
  { title := fieldValue callback BlockIdTitle
    body := bugBody (fieldValue callback blockIdSymptom)
      (fieldValue callback blockIdExpected)
      (fieldSelectedValue callback blockIdCategory)
      (fieldValue callback blockIdOptional)
    issueType := "Bug" }

/-- Modelled from the spec: `processSubmissionHandler` wraps
`modals.ToJiraIssue` (not under the provided sources), which renders the
issue and requests creation from the tracker client, always claiming the
callback. Per the spec's design note the source keeps no deduplication
cache, so the handler is stateless and files on every invocation. -/
def processSubmissionHandler : Handler := fun callback =>
  ⟨⟨true, none, none⟩, [renderedBugIssue callback]⟩

/-- The composed view-submission follow-up chain of the bug flow:
validation first, then filing. -/
def bugSubmissionHandler (marshal : Marshal) : Handler :=
  multiHandler [validateSubmissionHandler marshal, processSubmissionHandler]

/-- The fields of `slack.ModalViewRequest` the claims rely on, plus the
input blocks (block identifier and whether the input is optional). -/
structure ModalView where
  privateMetadata : String
  title : String
  close : String
  submit : String
  inputBlocks : List (String × Bool)
deriving DecidableEq

/-- The modal `View` from the bug package: the view for submitting a new bug,
with its private metadata set to the flow identifier. -/
def View : ModalView :=
  { privateMetadata := Identifier
    title := "File a Bug"
    close := "Cancel"
    submit := "Submit"
    inputBlocks := [(BlockIdTitle, false), (blockIdCategory, false),
      (blockIdOptional, true), (blockIdSymptom, false), (blockIdExpected, false)] }

/-- A registered flow: identifier, initial view and the follow-up chain per
interaction sub-type (`modals.FlowWithViewAndFollowUps`). -/
structure Flow where
  identifier : String
  initialView : ModalView
  followUps : List (InteractionType × Handler)

/-- The registration `Register` from the bug package: the bug flow keyed by `Identifier`,
with the composed validation-then-filing chain as the view-submission
follow-up (the tracker client and view updater arguments are captured
inside the filing handler's model). -/
def Register : Flow :=
  { identifier := Identifier
    initialView := View
    followUps := [(InteractionType.viewSubmission, bugSubmissionHandler jsonMarshal)] }

/-- Modelled from the spec: the interaction router's `Route`
(`interactionrouter.ForModals`, not under the provided sources) extracts
the flow identifier from the callback's private metadata; a miss in the
registry is claimed with a routing error, a flow without a follow-up for
the callback's sub-type declines, and otherwise the follow-up chain runs. -/
def routeInteraction (registry : List Flow) (callback : InteractionCallback) : Outcome :=
  match registry.find? (fun flow => flow.identifier == callback.view.privateMetadata) with
  | none => ⟨⟨true, none, some (HandlerErr.routingMiss callback.view.privateMetadata)⟩, []⟩
  | some flow =>
    match flow.followUps.lookup callback.interactionType with
    | none => ⟨⟨false, none, none⟩, []⟩
    | some handler => handler callback

/-- The socket-mode event types the dispatch loop's switch distinguishes
(`socketmode.EventTypeEventsAPI`, `socketmode.EventTypeInteractive`, and
everything else, which the switch ignores). -/
inductive SocketEventType
  | eventsAPI
  | interactive
  | otherEvent
deriving DecidableEq

/-- One envelope as seen by the dispatch loop, abstracted to what decides
its control flow: its socket-mode type, whether the type assertion on its
data succeeds, and — for interactive envelopes — whether the interaction
handler chain returns a non-nil error for it. -/
structure SocketEvent where
  eventType : SocketEventType
  castOk : Bool
  interactionError : Bool
deriving DecidableEq

/-- The externally observable steps of one iteration of the dispatch loop:
acknowledging the envelope, routing it to the event or interaction router,
or logging an error before moving on. -/
inductive LoopAction
  | ack
  | routeEvent
  | routeInteraction
  | logError
deriving DecidableEq

/-- The body of the dispatch loop in `main` for one envelope, as the
ordered list of steps it performs. Events-API envelopes: failed type
assertion is logged and skipped, otherwise `Ack` then the event router.
Interactive envelopes: failed type assertion is logged and skipped,
otherwise the interaction router's handler runs first and `Ack` (with the
payload) happens only when it returned no error; on error the loop logs
and continues without acknowledging. Other socket-mode event types fall
through the switch untouched. -/
def dispatchStep (event : SocketEvent) : List LoopAction :=
  match event.eventType with
  | SocketEventType.eventsAPI =>
    if event.castOk then [LoopAction.ack, LoopAction.routeEvent]
    else [LoopAction.logError]
  | SocketEventType.interactive =>
    if event.castOk then
      if event.interactionError then [LoopAction.routeInteraction, LoopAction.logError]
      else [LoopAction.routeInteraction, LoopAction.ack]
    else [LoopAction.logError]
  | SocketEventType.otherEvent => []

/-- Processing a sequence of deliveries of view-submission callbacks
through the bug flow's follow-up chain: the concatenation of the issues
filed for each delivery, in order. -/
def processDeliveries (marshal : Marshal) (callbacks : List InteractionCallback) :
    List RenderedIssue :=
  (callbacks.map (fun callback => (bugSubmissionHandler marshal callback).filed)).flatten

/-- A concrete valid submission: category "SNO" selected, qualifier left
blank, symptom and expected filled. -/
def cbSNO : InteractionCallback :=
  { interactionType := InteractionType.viewSubmission
    view :=
      { privateMetadata := "bug"
        stateValues :=
          [(BlockIdTitle, [⟨"", "CI runs flaky"⟩]),
           (blockIdCategory, [⟨"SNO", ""⟩]),
           (blockIdOptional, [⟨"", ""⟩]),
           (blockIdSymptom, [⟨"", "jobs time out"⟩]),
           (blockIdExpected, [⟨"", "jobs finish"⟩])] } }

/-- A concrete invalid submission: category "Other" selected and the
qualifier block left empty. -/
def cbOtherEmpty : InteractionCallback :=
  { interactionType := InteractionType.viewSubmission
    view :=
      { privateMetadata := "bug"
        stateValues :=
          [(BlockIdTitle, [⟨"", "Something odd"⟩]),
           (blockIdCategory, [⟨"Other", ""⟩]),
           (blockIdOptional, [⟨"", ""⟩]),
           (blockIdSymptom, [⟨"", "it breaks"⟩]),
           (blockIdExpected, [⟨"", "it works"⟩])] } }

/-- C2: for every view-submission callback in which the category field has
the option "Other" selected and the free-text qualifier field is empty, the
submission validator claims the callback with a response payload mapping
the offending block identifier (the qualifier block) to the error string
"Provide a description of the other component.", and the issue filer never
runs for the callback (no issue is filed by the composed chain). -/
theorem validator_rejects_other_with_empty_qualifier (cb : InteractionCallback)
    (hOther : ∃ a ∈ lookupBlock cb.view.stateValues blockIdCategory,
      a.selectedOptionValue = componentOther)
    (hEmpty : ∃ a ∈ lookupBlock cb.view.stateValues blockIdOptional, a.value = "") :
    bugSubmissionHandler jsonMarshal cb =
      ⟨⟨true, some ⟨raErrors, [(blockIdOptional, otherComponentMsg)]⟩, none⟩, []⟩ := by
  have h1 : (lookupBlock cb.view.stateValues blockIdCategory).any
      (fun action => action.selectedOptionValue == componentOther) = true := by
    rw [List.any_eq_true]
    obtain ⟨a, ha, he⟩ := hOther
    exact ⟨a, ha, by simp [he]⟩
  have h2 : (lookupBlock cb.view.stateValues blockIdOptional).any
      (fun action => action.value == "") = true := by
    rw [List.any_eq_true]
    obtain ⟨a, ha, he⟩ := hEmpty
    exact ⟨a, ha, by simp [he]⟩
  simp [bugSubmissionHandler, multiHandler, validateSubmissionHandler, jsonMarshal, h1, h2]

/-- Witness for C2 at the concrete "Other"-with-empty-qualifier callback. -/
theorem validator_rejects_other_with_empty_qualifier_witness :
    bugSubmissionHandler jsonMarshal cbOtherEmpty =
      ⟨⟨true, some ⟨raErrors, [(blockIdOptional, otherComponentMsg)]⟩, none⟩, []⟩ :=
  validator_rejects_other_with_empty_qualifier cbOtherEmpty (by decide) (by decide)

/-- C3: for every view-submission callback whose field values are valid —
the selected category is never "Other", or every value of the qualifier
block is non-empty — the submission validator declines with no payload and
no error, and the composed follow-up chain therefore produces exactly the
filing handler's outcome. -/
theorem validator_passes_valid_submission (cb : InteractionCallback)
    (hValid : (∀ a ∈ lookupBlock cb.view.stateValues blockIdCategory,
        a.selectedOptionValue ≠ componentOther) ∨
      (∀ a ∈ lookupBlock cb.view.stateValues blockIdOptional, a.value ≠ "")) :
    validateSubmissionHandler jsonMarshal cb = ⟨⟨false, none, none⟩, []⟩ ∧
    bugSubmissionHandler jsonMarshal cb = processSubmissionHandler cb := by
  have hv : validateSubmissionHandler jsonMarshal cb = ⟨⟨false, none, none⟩, []⟩ := by
    rcases hValid with h | h
    · have h1 : (lookupBlock cb.view.stateValues blockIdCategory).any
          (fun action => action.selectedOptionValue == componentOther) = false := by
        rw [List.any_eq_false]
        intro a ha
        simpa using h a ha
      simp [validateSubmissionHandler, h1]
    · by_cases h1 : (lookupBlock cb.view.stateValues blockIdCategory).any
          (fun action => action.selectedOptionValue == componentOther) = true
      · have h2 : (lookupBlock cb.view.stateValues blockIdOptional).any
            (fun action => action.value == "") = false := by
          rw [List.any_eq_false]
          intro a ha
          simpa using h a ha
        simp [validateSubmissionHandler, h1, h2]
      · simp [validateSubmissionHandler, Bool.eq_false_iff.mpr h1]
  refine ⟨hv, ?_⟩
  simp [bugSubmissionHandler, multiHandler, hv, processSubmissionHandler]

/-- Witness for C3 at the concrete valid "SNO" callback. -/
theorem validator_passes_valid_submission_witness :
    validateSubmissionHandler jsonMarshal cbSNO = ⟨⟨false, none, none⟩, []⟩ ∧
    bugSubmissionHandler jsonMarshal cbSNO = processSubmissionHandler cbSNO :=
  validator_passes_valid_submission cbSNO (Or.inl (by decide))

/-- C8: if marshaling the validation-error response payload fails for a
callback with "Other" selected and an empty qualifier, the submission
validator claims the callback with no payload and the marshaling error,
and no later handler runs — the composed chain surfaces the error and
files nothing. -/
theorem marshal_failure_claims_with_error (marshal : Marshal) (e : HandlerErr)
    (cb : InteractionCallback)
    (hOther : ∃ a ∈ lookupBlock cb.view.stateValues blockIdCategory,
      a.selectedOptionValue = componentOther)
    (hEmpty : ∃ a ∈ lookupBlock cb.view.stateValues blockIdOptional, a.value = "")
    (hfail : marshal ⟨raErrors, [(blockIdOptional, otherComponentMsg)]⟩ = Except.error e) :
    bugSubmissionHandler marshal cb = ⟨⟨true, none, some e⟩, []⟩ := by
  have h1 : (lookupBlock cb.view.stateValues blockIdCategory).any
      (fun action => action.selectedOptionValue == componentOther) = true := by
    rw [List.any_eq_true]
    obtain ⟨a, ha, he⟩ := hOther
    exact ⟨a, ha, by simp [he]⟩
  have h2 : (lookupBlock cb.view.stateValues blockIdOptional).any
      (fun action => action.value == "") = true := by
    rw [List.any_eq_true]
    obtain ⟨a, ha, he⟩ := hEmpty
    exact ⟨a, ha, by simp [he]⟩
  simp [bugSubmissionHandler, multiHandler, validateSubmissionHandler, h1, h2, hfail]

/-- Witness for C8 with an always-failing marshal step at the concrete
invalid callback. -/
theorem marshal_failure_claims_with_error_witness :
    bugSubmissionHandler (failingMarshal (HandlerErr.marshalFailure "boom")) cbOtherEmpty =
      ⟨⟨true, none, some (HandlerErr.marshalFailure "boom")⟩, []⟩ :=
  marshal_failure_claims_with_error (failingMarshal (HandlerErr.marshalFailure "boom"))
    (HandlerErr.marshalFailure "boom") cbOtherEmpty (by decide) (by decide) rfl

/-- C4: for every ordered sequence of handlers and every callback, the
composed handler returns, unmodified, the result of the first handler in
order that claims the input — its error included — and only the handlers
up to and including that one contribute tracker calls (no later handler
runs); if no handler claims the input the composed result is unhandled
with no payload and no error. -/
theorem multiHandler_returns_first_claimed_result (cb : InteractionCallback) :
    (∀ (pre post : List Handler) (h : Handler),
        (∀ g ∈ pre, (g cb).res.handled = false) → (h cb).res.handled = true →
        multiHandler (pre ++ h :: post) cb =
          ⟨(h cb).res, (pre.map (fun g => (g cb).filed)).flatten ++ (h cb).filed⟩) ∧
    (∀ handlers : List Handler, (∀ g ∈ handlers, (g cb).res.handled = false) →
        multiHandler handlers cb =
          ⟨⟨false, none, none⟩, (handlers.map (fun g => (g cb).filed)).flatten⟩) := by
  constructor
  · intro pre post h hpre hh
    induction pre with
    | nil => simp [multiHandler, hh]
    | cons g rest ih =>
      have hg : (g cb).res.handled = false := hpre g (by simp)
      have ih2 := ih (fun x hx => hpre x (by simp [hx]))
      simp [multiHandler, hg, ih2]
  · intro handlers hall
    induction handlers with
    | nil => simp [multiHandler]
    | cons g rest ih =>
      have hg : (g cb).res.handled = false := hall g (by simp)
      have ih2 := ih (fun x hx => hall x (by simp [hx]))
      simp [multiHandler, hg, ih2]

/-- Witness for C4: in the bug flow's chain at the valid "SNO" callback,
the validator declines and the filing handler is the first claimer, so the
composed outcome is the filing handler's result together with the filings
of the handlers that ran. -/
theorem multiHandler_returns_first_claimed_result_witness :
    multiHandler [validateSubmissionHandler jsonMarshal, processSubmissionHandler] cbSNO =
      ⟨(processSubmissionHandler cbSNO).res,
        ([validateSubmissionHandler jsonMarshal].map
          (fun g => (g cbSNO).filed)).flatten ++ (processSubmissionHandler cbSNO).filed⟩ :=
  (multiHandler_returns_first_claimed_result cbSNO).1
    [validateSubmissionHandler jsonMarshal] [] processSubmissionHandler
    (by
      intro g hg
      have hgv : g = validateSubmissionHandler jsonMarshal := by simpa using hg
      subst hgv
      decide)
    (by decide)

/-- C5: the body rendered from the bug issue template contains the
submitted symptom and expected texts verbatim, and its category section is
a conditional branch — "Other: " followed by the qualifier text when the
selected category is "Other", and the selected category itself otherwise. -/
theorem bug_template_round_trip (cb : InteractionCallback) :
    (∃ pre post, (renderedBugIssue cb).body =
      pre ++ fieldValue cb blockIdSymptom ++ post) ∧
    (∃ pre post, (renderedBugIssue cb).body =
      pre ++ fieldValue cb blockIdExpected ++ post) ∧
    (∃ pre, (renderedBugIssue cb).body =
      pre ++ (if fieldSelectedValue cb blockIdCategory = componentOther
        then "Other: " ++ fieldValue cb blockIdOptional
        else fieldSelectedValue cb blockIdCategory)) := by
  refine ⟨⟨"h3. Symptomatic Behavior\n",
      "\n\nh3. Expected Behavior\n" ++ fieldValue cb blockIdExpected ++
        "\n\nh3. Category\n" ++
        (if fieldSelectedValue cb blockIdCategory = componentOther
          then "Other: " ++ fieldValue cb blockIdOptional
          else fieldSelectedValue cb blockIdCategory), ?_⟩,
    ⟨"h3. Symptomatic Behavior\n" ++ fieldValue cb blockIdSymptom ++
        "\n\nh3. Expected Behavior\n",
      "\n\nh3. Category\n" ++
        (if fieldSelectedValue cb blockIdCategory = componentOther
          then "Other: " ++ fieldValue cb blockIdOptional
          else fieldSelectedValue cb blockIdCategory), ?_⟩,
    ⟨"h3. Symptomatic Behavior\n" ++ fieldValue cb blockIdSymptom ++
        "\n\nh3. Expected Behavior\n" ++ fieldValue cb blockIdExpected ++
        "\n\nh3. Category\n", ?_⟩⟩ <;>
  simp [renderedBugIssue, bugBody, String.append_assoc]

/-- Counterexample to C6: the dispatch loop does not acknowledge before
routing — an interactive envelope is routed to the interaction handler
first and acknowledged only afterwards, and an interactive envelope whose
handler chain errors is never acknowledged at all. -/
theorem dispatch_interactive_not_acked_first :
    dispatchStep ⟨SocketEventType.interactive, true, false⟩ =
      [LoopAction.routeInteraction, LoopAction.ack] ∧
    dispatchStep ⟨SocketEventType.interactive, true, false⟩ ≠
      [LoopAction.ack, LoopAction.routeInteraction] ∧
    LoopAction.ack ∉ dispatchStep ⟨SocketEventType.interactive, true, true⟩ := by
  decide

/-- C6 (amended): the dispatch loop acknowledges an events-API envelope
after its type assertion but before routing it to the event router; an
interactive envelope is routed first and acknowledged afterwards, and only
when the handler chain returns no error; envelopes whose type assertion
fails, and interactive envelopes whose handling errors, are never
acknowledged. -/
theorem dispatch_ack_discipline (event : SocketEvent) :
    (event.eventType = SocketEventType.eventsAPI → event.castOk = true →
      dispatchStep event = [LoopAction.ack, LoopAction.routeEvent]) ∧
    (event.eventType = SocketEventType.interactive → event.castOk = true →
      event.interactionError = false →
      dispatchStep event = [LoopAction.routeInteraction, LoopAction.ack]) ∧
    (event.castOk = false → LoopAction.ack ∉ dispatchStep event) ∧
    (event.eventType = SocketEventType.interactive → event.interactionError = true →
      LoopAction.ack ∉ dispatchStep event) := by
  obtain ⟨t, c, i⟩ := event
  cases t <;> cases c <;> cases i <;> decide

/-- Witness for C6 (amended) at a well-formed events-API envelope. -/
theorem dispatch_ack_discipline_witness :
    dispatchStep ⟨SocketEventType.eventsAPI, true, false⟩ =
      [LoopAction.ack, LoopAction.routeEvent] :=
  (dispatch_ack_discipline ⟨SocketEventType.eventsAPI, true, false⟩).1 rfl rfl

/-- C7: routing an interaction callback whose flow identifier (from the
view's private metadata) is registered under no flow in the registry
claims the input and surfaces a routing-miss error naming that
identifier. -/
theorem route_unregistered_flow_returns_miss (registry : List Flow)
    (cb : InteractionCallback)
    (hmiss : ∀ flow ∈ registry, flow.identifier ≠ cb.view.privateMetadata) :
    routeInteraction registry cb =
      ⟨⟨true, none, some (HandlerErr.routingMiss cb.view.privateMetadata)⟩, []⟩ := by
  have hfind : registry.find?
      (fun flow => flow.identifier == cb.view.privateMetadata) = none := by
    rw [List.find?_eq_none]
    intro flow hf
    simpa using hmiss flow hf
  simp [routeInteraction, hfind]

/-- Witness for C7: the empty registry misses every callback. -/
theorem route_unregistered_flow_returns_miss_witness :
    routeInteraction [] cbSNO =
      ⟨⟨true, none, some (HandlerErr.routingMiss "bug")⟩, []⟩ :=
  route_unregistered_flow_returns_miss [] cbSNO (by simp)

/-- C9: whenever an envelope's data fails the type assertion for its
socket-mode type, or an interactive envelope's handler chain returns a
non-nil error, the dispatch loop logs and moves on without ever
acknowledging that envelope. -/
theorem dispatch_error_never_acked (event : SocketEvent)
    (htype : event.eventType = SocketEventType.eventsAPI ∨
      event.eventType = SocketEventType.interactive)
    (herr : event.castOk = false ∨
      (event.eventType = SocketEventType.interactive ∧
        event.interactionError = true)) :
    LoopAction.ack ∉ dispatchStep event ∧ LoopAction.logError ∈ dispatchStep event := by
  obtain ⟨t, c, i⟩ := event
  revert htype herr
  cases t <;> cases c <;> cases i <;> decide

/-- Witness for C9 at an interactive envelope whose handler chain errors. -/
theorem dispatch_error_never_acked_witness :
    LoopAction.ack ∉ dispatchStep ⟨SocketEventType.interactive, true, true⟩ ∧
    LoopAction.logError ∈ dispatchStep ⟨SocketEventType.interactive, true, true⟩ :=
  dispatch_error_never_acked ⟨SocketEventType.interactive, true, true⟩
    (Or.inr rfl) (Or.inr ⟨rfl, rfl⟩)

/-- C10: the bug modal view carries private metadata exactly "bug", the
same identifier under which the flow is registered, so the interaction
router's registry lookup succeeds for every callback originating from that
view. -/
theorem bug_view_metadata_matches_registry_key :
    View.privateMetadata = "bug" ∧ Register.identifier = "bug" ∧
    Register.identifier = View.privateMetadata ∧
    (∀ cb : InteractionCallback, cb.view.privateMetadata = View.privateMetadata →
      [Register].find? (fun flow => flow.identifier == cb.view.privateMetadata) =
        some Register) := by
  refine ⟨rfl, rfl, rfl, ?_⟩
  intro cb h
  simp [List.find?, h, View, Register, Identifier]

/-- Witness for C10 at a concrete callback carrying the bug view's private
metadata. -/
theorem bug_view_metadata_matches_registry_key_witness :
    [Register].find? (fun flow => flow.identifier == cbSNO.view.privateMetadata) =
      some Register :=
  bug_view_metadata_matches_registry_key.2.2.2 cbSNO rfl

/-- C1 (code evaluated at the failing input): the submission chain keeps no
deduplication state, so redelivering the identical valid view-submission
callback after a successful filing files a second, identical issue — two
rendered issues reach the tracker client for one logical submission. -/
theorem redelivered_submission_files_twice :
    processDeliveries jsonMarshal [cbSNO, cbSNO] =
      [renderedBugIssue cbSNO, renderedBugIssue cbSNO] ∧
    (processDeliveries jsonMarshal [cbSNO, cbSNO]).length = 2 := by
  constructor
  · decide
  · decide

end SlackJiraBot
